import Mathlib

/-!
Shallow embedding of the two source files of the ThreeJSPortfolio repository:

  - `generate_camera_path.py`: a one-shot script that builds a camera-path
    NURBS curve through the FBX SDK and exports it to a scene file;
  - `portfolio_app/views.py`: a single Django view rendering a fixed template.

Calls into the external libraries (FBX SDK, Django) are modelled through an
oracle environment (`FbxEnv`) recording the outcome of each external call,
and a run-result record (`RunResult`) recording everything observable the
function did: its return value, the lines it printed, the resources it
acquired and released, the curve configuration it set, the control points it
set, and whether the export call was issued.  Python floats are modelled as
real numbers.
-/

namespace PortfolioSpec

/-- One 3D control point (the script packs coordinates into an
`fbx.FbxVector4`); the Python floats are modelled as real numbers. -/
structure Vec3 where
  x : ℝ
  y : ℝ
  z : ℝ

/-- The loop body of `create_camera_path_fbx`, source lines 41-46:

    t = i / 9.0
    x = math.sin(t * math.pi * 2) * 5
    y = 2 + math.sin(t * math.pi) * 1
    z = -i * 10
-/
noncomputable def controlPoint (i : ℕ) : Vec3 :=
  let t : ℝ := (i : ℝ) / 9
  { x := Real.sin (t * Real.pi * 2) * 5
  , y := 2 + Real.sin (t * Real.pi) * 1
  , z := -(i : ℝ) * 10 }

/-- The external-library resources the script touches. -/
inductive Resource where
  | manager
  | ioSettings
  | scene
  | curve
  | exporter
deriving DecidableEq, Repr

/-- Oracle for the outcomes of the external FBX SDK calls.  Each field
records whether the corresponding SDK call returns a valid (truthy) handle
or a success status.  The source only ever branches on `managerOk`
(line 19) and `exportInitOk` (line 59); the other fields exist so that
independence from them can be stated. -/
structure FbxEnv where
  managerOk : Bool
  iosOk : Bool
  sceneOk : Bool
  curveOk : Bool
  exporterOk : Bool
  exportInitOk : Bool
  exportOk : Bool
deriving DecidableEq, Repr

/-- Everything observable that one call of `create_camera_path_fbx` does. -/
structure RunResult where
  returnValue : Bool
  output : List String
  acquired : List Resource
  released : List Resource
  pointsSet : List (ℕ × Vec3)
  curveOrder : Option ℕ
  curveDim : Option ℕ
  curveCount : Option ℕ
  curveStep : Option ℕ
  exportInvoked : Bool

/-- The dimension constant `fbx.FbxNurbsCurve.e3D` (ordinal 3 in the SDK
enumeration eNone, e2D, e3D). -/
def e3D : ℕ := 3

/-- Default value of the `output_file` argument, source line 15. -/
def defaultOutputFile : String := "static/models/camera_path.fbx"

/-- Shallow embedding of `create_camera_path_fbx` (source lines 15-71).

Control flow of the source: create the manager and return `False` with an
error message if that fails (lines 18-21); create IO settings, scene and
curve without any check on the returned handles (lines 24-31); set order 3,
dimension e3D, control-point count 10 and step 4 (lines 34-37); set the ten
control points (lines 40-49); create the exporter (line 55) and return
`False` with an error message if its initialization fails (lines 58-61) —
with no `Destroy` call on that path; otherwise export the scene, destroy
the exporter and the manager, print a confirmation and return `True`
(lines 64-71).  Destroying the manager destroys every object created under
it (IO settings, scene, curve), per the SDK ownership model, which the
`released` list on the success path reflects. -/
noncomputable def create_camera_path_fbx (env : FbxEnv) (output_file : String) :
    RunResult :=
  if env.managerOk = false then
    { returnValue := false
    , output := ["Error: Unable to create FBX Manager!"]
    , acquired := []
    , released := []
    , pointsSet := []
    , curveOrder := none
    , curveDim := none
    , curveCount := none
    , curveStep := none
    , exportInvoked := false }
  else
    let pts : List (ℕ × Vec3) := (List.range 10).map (fun i => (i, controlPoint i))
    if env.exportInitOk = false then
      { returnValue := false
      , output := ["Error: Unable to initialize exporter!"]
      , acquired := [Resource.manager, Resource.ioSettings, Resource.scene,
                     Resource.curve, Resource.exporter]
      , released := []
      , pointsSet := pts
      , curveOrder := some 3
      , curveDim := some e3D
      , curveCount := some 10
      , curveStep := some 4
      , exportInvoked := false }
    else
      { returnValue := true
      , output := ["FBX file created successfully: " ++ output_file]
      , acquired := [Resource.manager, Resource.ioSettings, Resource.scene,
                     Resource.curve, Resource.exporter]
      , released := [Resource.exporter, Resource.manager, Resource.ioSettings,
                     Resource.scene, Resource.curve]
      , pointsSet := pts
      , curveOrder := some 3
      , curveDim := some e3D
      , curveCount := some 10
      , curveStep := some 4
      , exportInvoked := true }

/-- Observable outcome of running the file as a script. -/
structure ScriptResult where
  exitCode : ℕ
  output : List String
  fileWriteAttempted : Bool
  fnReturn : Option Bool

/-- Shallow embedding of the module-level behavior: the import guard
(source lines 8-13) and the `__main__` block (lines 73-74).  `importOk`
records whether `import fbx` succeeds.  On import failure the script prints
two explanatory lines and exits with status 1 before any file activity;
when the module loads it calls `create_camera_path_fbx()` with the default output
path, discards its return value, and falls off the end of the module
(implicit exit status 0). -/
noncomputable def runScript (importOk : Bool) (env : FbxEnv) : ScriptResult :=
  if importOk = false then
    { exitCode := 1
    , output := ["FBX SDK Python bindings not found. Please install the FBX SDK or use a pre-made FBX file.",
                 "You can download the FBX SDK from: https://www.autodesk.com/developer-network/platform-technologies/fbx-sdk-2020-0"]
    , fileWriteAttempted := false
    , fnReturn := none }
  else
    let r := create_camera_path_fbx env defaultOutputFile
    { exitCode := 0
    , output := r.output
    , fileWriteAttempted := r.exportInvoked
    , fnReturn := some r.returnValue }

/-- Environment in which every external SDK call succeeds. -/
def envAllOk : FbxEnv :=
  { managerOk := true, iosOk := true, sceneOk := true, curveOk := true
  , exporterOk := true, exportInitOk := true, exportOk := true }

/-- Environment in which exporter initialization fails and everything else
succeeds. -/
def envExportInitFails : FbxEnv :=
  { managerOk := true, iosOk := true, sceneOk := true, curveOk := true
  , exporterOk := true, exportInitOk := false, exportOk := true }

/-- Environment in which scene creation returns a null handle and
everything else succeeds. -/
def envSceneNull : FbxEnv :=
  { managerOk := true, iosOk := true, sceneOk := false, curveOk := true
  , exporterOk := true, exportInitOk := true, exportOk := true }

/-- Environment in which manager creation fails. -/
def envManagerFails : FbxEnv :=
  { managerOk := false, iosOk := true, sceneOk := true, curveOk := true
  , exporterOk := true, exportInitOk := true, exportOk := true }

/-- The list of all five SDK resources the function creates on the main
path. -/
def allResources : List Resource :=
  [Resource.manager, Resource.ioSettings, Resource.scene,
   Resource.curve, Resource.exporter]

/-! ## Embedding of `portfolio_app/views.py` -/

/-- An incoming HTTP request, opaque to the view; its content is modelled
as an arbitrary list of header-like pairs. -/
structure HttpRequest where
  content : List (String × String)

/-- The argument package the view hands to the framework rendering
facility: a template name and an optional context dictionary.  The view
`index` passes no context dictionary (Django then uses `context=None`). -/
structure RenderCall where
  template : String
  context : Option (List (String × String))
deriving DecidableEq, Repr

/-- Shallow embedding of `index` (views.py lines 3-7): it delegates to
`render(request, 'portfolio_app/index.html')`, selecting the one fixed
template and passing no context. -/
def index (_request : HttpRequest) : RenderCall :=
  { template := "portfolio_app/index.html", context := none }

/-- The body of the response produced for a request, given the framework
rendering facility; per the spec the rendering pipeline is owned by the
framework and determined by the template name and context handed to it. -/
def responseBody (render : RenderCall → String) (request : HttpRequest) : String :=
  render (index request)

/-! ## Theorems for the claims -/

/-- Claim C1: for every index i in 0..9, the control point produced by the
path generator has z-coordinate exactly -10·i. -/
theorem c1_z_coordinate_linear (i : Fin 10) :
    (controlPoint (i : ℕ)).z = -10 * ((i : ℕ) : ℝ) := by
  simp only [controlPoint]
  ring

/-- Claim C2: for every index i in 0..9, with t = i/9, the control point
has x = 5·sin(2π·t) and y = 2 + sin(π·t); over the real-number model the
equality is exact. -/
theorem c2_xy_sinusoidal (i : Fin 10) :
    (controlPoint (i : ℕ)).x = 5 * Real.sin (2 * Real.pi * (((i : ℕ) : ℝ) / 9)) ∧
    (controlPoint (i : ℕ)).y = 2 + Real.sin (Real.pi * (((i : ℕ) : ℝ) / 9)) := by
  constructor
  · simp only [controlPoint]
    rw [show ((i : ℕ) : ℝ) / 9 * Real.pi * 2 = 2 * Real.pi * (((i : ℕ) : ℝ) / 9) by ring]
    ring
  · simp only [controlPoint]
    rw [show ((i : ℕ) : ℝ) / 9 * Real.pi = Real.pi * (((i : ℕ) : ℝ) / 9) by ring]
    ring

/-- Claim C3: on the successful path the generator produces exactly 10
control points, set at indices 0..9 in increasing order, on a curve
configured with order 3 (the source's cubic-curve constant), dimension e3D,
count 10 and step 4; the configuration is the same for every environment
and every output-file argument, hence configurable by no input. -/
theorem c3_fixed_curve_configuration (env : FbxEnv) (file : String)
    (hm : env.managerOk = true) (he : env.exportInitOk = true) :
    (create_camera_path_fbx env file).returnValue = true ∧
    (create_camera_path_fbx env file).pointsSet =
      (List.range 10).map (fun i => (i, controlPoint i)) ∧
    (create_camera_path_fbx env file).pointsSet.length = 10 ∧
    (create_camera_path_fbx env file).pointsSet.map Prod.fst = List.range 10 ∧
    (create_camera_path_fbx env file).curveOrder = some 3 ∧
    (create_camera_path_fbx env file).curveDim = some e3D ∧
    (create_camera_path_fbx env file).curveCount = some 10 ∧
    (create_camera_path_fbx env file).curveStep = some 4 := by
  simp [create_camera_path_fbx, hm, he]
  exact List.map_id (List.range 10)

/-- Witness for C3 at a concrete environment and output file. -/
theorem c3_fixed_curve_configuration_witness :
    (create_camera_path_fbx envAllOk "c3.fbx").returnValue = true ∧
    (create_camera_path_fbx envAllOk "c3.fbx").pointsSet =
      (List.range 10).map (fun i => (i, controlPoint i)) ∧
    (create_camera_path_fbx envAllOk "c3.fbx").pointsSet.length = 10 ∧
    (create_camera_path_fbx envAllOk "c3.fbx").pointsSet.map Prod.fst = List.range 10 ∧
    (create_camera_path_fbx envAllOk "c3.fbx").curveOrder = some 3 ∧
    (create_camera_path_fbx envAllOk "c3.fbx").curveDim = some e3D ∧
    (create_camera_path_fbx envAllOk "c3.fbx").curveCount = some 10 ∧
    (create_camera_path_fbx envAllOk "c3.fbx").curveStep = some 4 :=
  c3_fixed_curve_configuration envAllOk "c3.fbx" rfl rfl

/-- Counterexample to claim C4 as stated: on the exporter-initialization
failure return, the manager has been acquired but nothing is released. -/
theorem c4_counterexample :
    (create_camera_path_fbx envExportInitFails "c4.fbx").returnValue = false ∧
    Resource.manager ∈ (create_camera_path_fbx envExportInitFails "c4.fbx").acquired ∧
    (create_camera_path_fbx envExportInitFails "c4.fbx").released = [] := by
  refine ⟨rfl, ?_, rfl⟩
  simp [create_camera_path_fbx, envExportInitFails]

/-- Claim C4 amended: resources are acquired exactly when manager creation
succeeds, and released only on the success path (where the exporter is
destroyed explicitly and destroying the manager releases everything created
under it); on the exporter-initialization failure return nothing is
released. -/
theorem c4_release_only_on_success (env : FbxEnv) (file : String) :
    (create_camera_path_fbx env file).acquired =
      (if env.managerOk then allResources else []) ∧
    (create_camera_path_fbx env file).released =
      (if env.managerOk && env.exportInitOk then
        [Resource.exporter, Resource.manager, Resource.ioSettings,
         Resource.scene, Resource.curve]
       else []) := by
  cases hm : env.managerOk <;> cases he : env.exportInitOk <;>
    simp [create_camera_path_fbx, hm, he, allResources]

/-- Counterexample to claim C5 as stated: with scene creation returning a
null handle (and nothing else failing), the function neither reports an
error nor aborts — it prints the success confirmation and returns `True`,
because the source never checks the scene or curve handles. -/
theorem c5_counterexample :
    (create_camera_path_fbx envSceneNull "c5.fbx").returnValue = true ∧
    (create_camera_path_fbx envSceneNull "c5.fbx").output =
      ["FBX file created successfully: c5.fbx"] := by
  exact ⟨rfl, rfl⟩

/-- Claim C5 amended: only the manager creation is checked — the function
aborts with `False` and an error message exactly when manager creation or
exporter initialization fails, and its result is independent of whether the
scene and curve creation calls return valid handles. -/
theorem c5_only_manager_creation_checked (env : FbxEnv) (file : String)
    (b c : Bool) :
    (create_camera_path_fbx env file).returnValue =
      (env.managerOk && env.exportInitOk) ∧
    (env.managerOk = false →
      (create_camera_path_fbx env file).output =
        ["Error: Unable to create FBX Manager!"]) ∧
    create_camera_path_fbx { env with sceneOk := b, curveOk := c } file =
      create_camera_path_fbx env file := by
  refine ⟨?_, ?_, rfl⟩
  · cases hm : env.managerOk <;> cases he : env.exportInitOk <;>
      simp [create_camera_path_fbx, hm, he]
  · intro hm
    simp [create_camera_path_fbx, hm]

/-- Witness for C5's amended theorem at a concrete failing environment. -/
theorem c5_only_manager_creation_checked_witness :
    (create_camera_path_fbx envManagerFails "c5w.fbx").returnValue =
      (envManagerFails.managerOk && envManagerFails.exportInitOk) ∧
    (envManagerFails.managerOk = false →
      (create_camera_path_fbx envManagerFails "c5w.fbx").output =
        ["Error: Unable to create FBX Manager!"]) ∧
    create_camera_path_fbx { envManagerFails with sceneOk := false, curveOk := false } "c5w.fbx" =
      create_camera_path_fbx envManagerFails "c5w.fbx" :=
  c5_only_manager_creation_checked envManagerFails "c5w.fbx" false false

/-- Claim C6: if the FBX bindings are unavailable at import time, the
process prints the explanatory messages, exits with status 1, attempts no
file write, and never reaches the generator function. -/
theorem c6_import_guard (env : FbxEnv) :
    (runScript false env).exitCode = 1 ∧
    (runScript false env).fileWriteAttempted = false ∧
    (runScript false env).fnReturn = none ∧
    (runScript false env).output =
      ["FBX SDK Python bindings not found. Please install the FBX SDK or use a pre-made FBX file.",
       "You can download the FBX SDK from: https://www.autodesk.com/developer-network/platform-technologies/fbx-sdk-2020-0"] :=
  ⟨rfl, rfl, rfl, rfl⟩

/-- Claim C7: when resource creation or exporter initialization fails, the
generator prints an error line and returns `False`, and the script run
still terminates with exit status 0 because the `__main__` block discards
the return value. -/
theorem c7_failure_exits_zero (env : FbxEnv)
    (h : env.managerOk = false ∨ env.exportInitOk = false) :
    (runScript true env).fnReturn = some false ∧
    (runScript true env).exitCode = 0 ∧
    ((runScript true env).output = ["Error: Unable to create FBX Manager!"] ∨
     (runScript true env).output = ["Error: Unable to initialize exporter!"]) := by
  by_cases hm : env.managerOk = false
  · simp [runScript, create_camera_path_fbx, hm]
  · have hm2 : env.managerOk = true := by
      cases hv : env.managerOk
      · exact absurd hv hm
      · rfl
    have he : env.exportInitOk = false := by
      rcases h with h | h
      · exact absurd h hm
      · exact h
    simp [runScript, create_camera_path_fbx, hm2, he]

/-- Witness for C7 at the concrete environment where exporter
initialization fails. -/
theorem c7_failure_exits_zero_witness :
    (runScript true envExportInitFails).fnReturn = some false ∧
    (runScript true envExportInitFails).exitCode = 0 ∧
    ((runScript true envExportInitFails).output = ["Error: Unable to create FBX Manager!"] ∨
     (runScript true envExportInitFails).output = ["Error: Unable to initialize exporter!"]) :=
  c7_failure_exits_zero envExportInitFails (Or.inr rfl)

/-- Claim C8: once exporter initialization succeeds the export call's own
return status is never consulted — the generator prints the success
confirmation and returns `True`, and its entire result is identical whether
the export operation reports success or failure. -/
theorem c8_export_status_unchecked (env : FbxEnv) (file : String)
    (hm : env.managerOk = true) (he : env.exportInitOk = true) :
    (create_camera_path_fbx env file).returnValue = true ∧
    (create_camera_path_fbx env file).output =
      ["FBX file created successfully: " ++ file] ∧
    (create_camera_path_fbx env file).exportInvoked = true ∧
    create_camera_path_fbx { env with exportOk := true } file =
      create_camera_path_fbx { env with exportOk := false } file := by
  refine ⟨?_, ?_, ?_, rfl⟩ <;> simp [create_camera_path_fbx, hm, he]

/-- Witness for C8 at a concrete all-success environment. -/
theorem c8_export_status_unchecked_witness :
    (create_camera_path_fbx envAllOk "c8.fbx").returnValue = true ∧
    (create_camera_path_fbx envAllOk "c8.fbx").output =
      ["FBX file created successfully: c8.fbx"] ∧
    (create_camera_path_fbx envAllOk "c8.fbx").exportInvoked = true ∧
    create_camera_path_fbx { envAllOk with exportOk := true } "c8.fbx" =
      create_camera_path_fbx { envAllOk with exportOk := false } "c8.fbx" :=
  c8_export_status_unchecked envAllOk "c8.fbx" rfl rfl

/-- Claim C9: the view returns the rendering of the one fixed template with
no context for every request, so the response body is identical across any
two calls and does not depend on the request. -/
theorem c9_static_response (render : RenderCall → String)
    (r1 r2 : HttpRequest) :
    index r1 = { template := "portfolio_app/index.html", context := none } ∧
    (index r1).context = none ∧
    responseBody render r1 = responseBody render r2 :=
  ⟨rfl, rfl, rfl⟩

/-- Claim C10: the control-point coordinates are a pure function of the
index — any two runs that reach the point-setting loop produce identical
coordinate sequences, regardless of the environment and the output-file
argument, and that sequence is `controlPoint` applied to 0..9. -/
theorem c10_points_deterministic (env1 env2 : FbxEnv) (file1 file2 : String)
    (h1 : env1.managerOk = true) (h2 : env2.managerOk = true) :
    (create_camera_path_fbx env1 file1).pointsSet =
      (create_camera_path_fbx env2 file2).pointsSet ∧
    (create_camera_path_fbx env1 file1).pointsSet =
      (List.range 10).map (fun i => (i, controlPoint i)) := by
  cases he1 : env1.exportInitOk <;> cases he2 : env2.exportInitOk <;>
    simp [create_camera_path_fbx, h1, h2, he1, he2]

/-- Witness for C10: two concrete runs with different environments and
output files produce the same control points. -/
theorem c10_points_deterministic_witness :
    (create_camera_path_fbx envAllOk "run1.fbx").pointsSet =
      (create_camera_path_fbx envExportInitFails "run2.fbx").pointsSet ∧
    (create_camera_path_fbx envAllOk "run1.fbx").pointsSet =
      (List.range 10).map (fun i => (i, controlPoint i)) :=
  c10_points_deterministic envAllOk envExportInitFails "run1.fbx" "run2.fbx" rfl rfl

end PortfolioSpec
